import Mathlib

/-!
Shallow embedding of the share-mode lock record manager of
`source3/locking/share_mode_lock.c` (samba 4.11.12).

The process-global static slot (`static_share_mode_data`, its refcount, and
`static_share_mode_record`), the locking database and the process-local
memcache are modelled as one explicit `State` record.  Persisted values are
modelled by the `blob` type, which distinguishes a zero-length value, a value
whose 9-byte header is unreadable, a value whose header is readable but whose
full decode fails, and a fully decodable value.  Store side effects are
reported as an explicit list of `DbOp` events so that claims about the
presence or absence of store I/O can be stated directly.
-/

set_option autoImplicit false

namespace ShareModeLock

universe u

/-- File identity: the dev/inode/extid triple used as the locking key.
Equality is byte-exact, as for `struct file_id`. -/
structure file_id where
  devid : Nat
  inode : Nat
  extid : Nat
deriving DecidableEq, Repr

def file_id_equal (a b : file_id) : Bool := decide (a = b)

def UINT64_MAX : Nat := 2 ^ 64 - 1

/-- Server (process) identity; only the pid field matters here. -/
structure server_id where
  pid : Nat
deriving DecidableEq, Repr

/-- Modelled from the spec: the process-liveness collaborator
`is_disconnected(process_id) -> bool` is not part of the given sources; a
disconnected server id carries the sentinel pid value. -/
def server_id_is_disconnected (s : server_id) : Bool := decide (s.pid = UINT64_MAX)

/-- One share mode entry: owning process, open-handle correlation id,
client/lease identifiers, and the transient stale mark. -/
structure share_mode_entry where
  pid : server_id
  share_file_id : Nat
  client_guid : Nat
  lease_key : Nat
  stale : Bool
deriving DecidableEq, Repr

/-- The per-file record (`struct share_mode_data`).  `modified`, `fresh` are
transient bookkeeping never persisted; the `record` pointer of the C struct is
represented by `State.static_share_mode_record` instead. -/
structure share_mode_data where
  id : file_id
  base_name : String
  stream_name : Option String
  servicepath : String
  old_write_time : Int
  sequence_number : Nat
  flags : Nat
  share_modes : List share_mode_entry
  modified : Bool
  fresh : Bool
deriving DecidableEq, Repr

def share_mode_data.num_share_modes (d : share_mode_data) : Nat :=
  d.share_modes.length

/-- A persisted value as the code can observe it: zero-length (ctdb
tombstone), too short or mangled for even the 9-byte header peek, header
readable but full NDR decode failing, or fully decodable. -/
inductive blob
  | tombstone
  | headerCorrupt
  | bodyCorrupt (seq : Nat) (flags : Nat)
  | wellFormed (d : share_mode_data)
deriving DecidableEq, Repr

/-- Whether the value has `dsize == 0`. -/
def blob.dsize_zero : blob → Bool
  | .tombstone => true
  | _ => false

/-- `get_share_mode_blob_header`: peek the leading 8-byte sequence number and
1-byte flags without a full decode; fails on a value shorter than 9 bytes. -/
def get_share_mode_blob_header : blob → Option (Nat × Nat)
  | .tombstone => none
  | .headerCorrupt => none
  | .bodyCorrupt s f => some (s, f)
  | .wellFormed d => some (d.sequence_number, d.flags)

/-- `ndr_push_share_mode_data`: encode a record.  The transient `modified` and
`fresh` fields are skipped by the wire format. -/
def ndr_push_share_mode_data (d : share_mode_data) : blob :=
  blob.wellFormed { d with modified := false, fresh := false }

/-- `ndr_pull_share_mode_data` (via `ndr_pull_struct_blob_all`): full decode.
Skipped transient fields come back zeroed. -/
def ndr_pull_share_mode_data_all : blob → Option share_mode_data
  | .wellFormed d => some { d with modified := false, fresh := false }
  | _ => none

section AList

variable {α : Type u}

/-- Key lookup in an association-list view of a keyed store. -/
def alist_lookup (l : List (file_id × α)) (k : file_id) : Option α :=
  match l with
  | [] => none
  | (k2, v) :: rest => if k2 = k then some v else alist_lookup rest k

/-- Insert-or-replace under a key. -/
def alist_set (l : List (file_id × α)) (k : file_id) (v : α) : List (file_id × α) :=
  match l with
  | [] => [(k, v)]
  | (k2, v2) :: rest =>
    if k2 = k then (k, v) :: rest else (k2, v2) :: alist_set rest k v

/-- Remove all values under a key. -/
def alist_del (l : List (file_id × α)) (k : file_id) : List (file_id × α) :=
  match l with
  | [] => []
  | (k2, v2) :: rest =>
    if k2 = k then alist_del rest k else (k2, v2) :: alist_del rest k

end AList

/-- Observable store operations, used to state claims about store I/O. -/
inductive DbOp
  | fetchLocked (k : file_id)
  | storeRec (k : file_id) (b : blob)
  | deleteRec (k : file_id)
  | doLockedOp (k : file_id)
  | wakeup (k : file_id)
  | parseRecord (k : file_id)
  | leaseDelete (client_guid : Nat) (lease_key : Nat) (k : file_id)
  | brlCleanup (k : file_id) (open_id : Nat)
deriving DecidableEq, Repr

/-- The process-visible state: the locking database with its TDB_SEQNUM
counter, the share-mode memcache, and the static slot variables of
`share_mode_lock.c`. -/
structure State where
  db : List (file_id × blob)
  db_seqnum : Int
  cache : List (file_id × share_mode_data)
  static_share_mode_data : Option share_mode_data
  static_share_mode_data_refcount : Nat
  static_share_mode_record : Option file_id
  static_share_mode_record_talloced : Bool
deriving DecidableEq, Repr

/-- `dbwrap_record_store` with TDB_REPLACE; any write bumps the database
sequence number (TDB_SEQNUM). -/
def dbwrap_record_store (st : State) (k : file_id) (b : blob) : State :=
  { st with db := alist_set st.db k b, db_seqnum := st.db_seqnum + 1 }

/-- `dbwrap_record_delete`; also bumps the database sequence number. -/
def dbwrap_record_delete (st : State) (k : file_id) : State :=
  { st with db := alist_del st.db k, db_seqnum := st.db_seqnum + 1 }

/-- `dbwrap_record_get_value` of the record locked at key `k`: the current
store value, `none` when no record exists. -/
def dbwrap_record_get_value (st : State) (k : file_id) : Option blob :=
  alist_lookup st.db k

/-- The `TDB_DATA` handed to value parsers: an absent record appears as a
NULL/zero-length value. -/
def value_blob : Option blob → blob
  | none => blob.tombstone
  | some b => b

/-- `share_mode_memcache_store`: scrub the transient bits and move the record
into the cache under its file id. -/
def share_mode_memcache_store (st : State) (d : share_mode_data) : State :=
  let d2 := { d with modified := false, fresh := false }
  { st with cache := alist_set st.cache d2.id d2 }

/-- `share_mode_memcache_fetch`: look the id up in the cache; validate the
cached copy against the header peek of the current store value.  A failed peek
or a sequence-number mismatch evicts the entry and misses; a match removes the
entry from the cache and hands it to the caller. -/
def share_mode_memcache_fetch (st : State) (id : file_id) (b : blob) :
    Option share_mode_data × State :=
  match alist_lookup st.cache id with
  | none => (none, st)
  | some d =>
    match get_share_mode_blob_header b with
    | none => (none, { st with cache := alist_del st.cache id })
    | some (seq, _fl) =>
      if d.sequence_number ≠ seq then
        (none, { st with cache := alist_del st.cache id })
      else
        (some d, { st with cache := alist_del st.cache id })

/-- `parse_share_modes`: consult the cache first, otherwise do a full NDR
decode of the store value. -/
def parse_share_modes (st : State) (key : file_id) (b : blob) :
    Option share_mode_data × State :=
  match share_mode_memcache_fetch st key b with
  | (some d, st2) => (some d, st2)
  | (none, st2) => (ndr_pull_share_mode_data_all b, st2)

/-- The name/path pair handed to `get_share_mode_lock` by openers. -/
structure smb_filename where
  base_name : String
  stream_name : Option String
deriving DecidableEq, Repr

def file_id_zero : file_id := { devid := 0, inode := 0, extid := 0 }

/-- `fresh_share_mode_lock`: materialize a record for a key with no backing
store entry.  All three creation parameters are mandatory; the new record gets
a freshly generated random sequence number (`rand_seq`), no entries, and
`fresh = true`. -/
def fresh_share_mode_lock (rand_seq : Nat) (servicepath : Option String)
    (smb_fname : Option smb_filename) (old_write_time : Option Int) :
    Option share_mode_data :=
  match servicepath, smb_fname, old_write_time with
  | some sp, some f, some t =>
    some { id := file_id_zero
           base_name := f.base_name
           stream_name := f.stream_name
           servicepath := sp
           old_write_time := t
           sequence_number := rand_seq % 2 ^ 64
           flags := 0
           share_modes := []
           modified := false
           fresh := true }
  | _, _, _ => none

/-- Modelled from the spec: `remove_stale_share_mode_entries` is called by the
sources but defined outside the given files; per the spec's treatment of stale
opens it drops the entries already marked stale before the record is
persisted, keeping the remaining entries in order. -/
def remove_stale_share_mode_entries (d : share_mode_data) : share_mode_data :=
  { d with share_modes := d.share_modes.filter (fun e => !e.stale) }

inductive NTStatus
  | NT_STATUS_OK
  | NT_STATUS_NO_MEMORY
  | NT_STATUS_INTERNAL_DB_CORRUPTION
  | NT_STATUS_INVALID_LOCK_SEQUENCE
  | NT_STATUS_NOT_FOUND
  | NT_STATUS_NDR_ERROR
  | NT_STATUS_INTERNAL_ERROR
deriving DecidableEq, Repr

open NTStatus

/-- `share_mode_data_store`: nothing happens for an unmodified record.  A
modified record first gets its (64-bit) sequence number incremented and its
stale entries removed; an empty fresh record is ignored, an empty non-fresh
record is deleted from the store, and otherwise the encoded record is written
back.  Returns the status, the record as mutated, the new state and the store
operations performed. -/
def share_mode_data_store (st : State) (d : share_mode_data) :
    NTStatus × share_mode_data × State × List DbOp :=
  if d.modified = false then
    (NT_STATUS_OK, d, st, [])
  else
    let d1 := { d with sequence_number := (d.sequence_number + 1) % 2 ^ 64 }
    let d2 := remove_stale_share_mode_entries d1
    if d2.num_share_modes = 0 then
      if d2.fresh then
        (NT_STATUS_OK, d2, st, [])
      else
        (NT_STATUS_OK, d2, dbwrap_record_delete st d2.id, [DbOp.deleteRec d2.id])
    else
      (NT_STATUS_OK, d2, dbwrap_record_store st d2.id (ndr_push_share_mode_data d2),
        [DbOp.storeRec d2.id (ndr_push_share_mode_data d2)])

/-- `get_static_share_mode_data`: fill the static slot from the locked record,
either by decoding the existing value (through the cache) or by materializing
a fresh record; the record's id is then forced to the locked key. -/
def get_static_share_mode_data (st : State) (id : file_id)
    (servicepath : Option String) (smb_fname : Option smb_filename)
    (old_write_time : Option Int) (rand_seq : Nat) : NTStatus × State :=
  match dbwrap_record_get_value st id with
  | none =>
    match fresh_share_mode_lock rand_seq servicepath smb_fname old_write_time with
    | none => (NT_STATUS_NO_MEMORY, st)
    | some d0 =>
      (NT_STATUS_OK, { st with static_share_mode_data := some { d0 with id := id } })
  | some value =>
    match parse_share_modes st id value with
    | (none, st2) => (NT_STATUS_INTERNAL_DB_CORRUPTION, st2)
    | (some d0, st2) =>
      (NT_STATUS_OK, { st2 with static_share_mode_data := some { d0 with id := id } })

/-- A share-mode lock handle; its `data` aliases the static slot record
(nullable, as the C pointer is). -/
structure share_mode_lock where
  data : Option share_mode_data
deriving DecidableEq, Repr

/-- `get_share_mode_lock`: nested acquisition for the identity already held
shares the static record and bumps the refcount with no store I/O; a held slot
for a different identity fails; a free slot takes the exclusive store lock and
fills the static slot (reusing an already-held `static_share_mode_record` from
a surrounding `share_mode_do_locked`). -/
def get_share_mode_lock (st : State) (id : file_id)
    (servicepath : Option String) (smb_fname : Option smb_filename)
    (old_write_time : Option Int) (rand_seq : Nat) :
    Option share_mode_lock × State × List DbOp :=
  match st.static_share_mode_data with
  | some d =>
    if file_id_equal d.id id then
      let st2 := { st with
        static_share_mode_data_refcount := st.static_share_mode_data_refcount + 1 }
      (some { data := st2.static_share_mode_data }, st2, [])
    else
      (none, st, [])
  | none =>
    match st.static_share_mode_record with
    | none =>
      let st1 := { st with
        static_share_mode_record := some id
        static_share_mode_record_talloced := true }
      match get_static_share_mode_data st1 id servicepath smb_fname old_write_time rand_seq with
      | (status, st2) =>
        if status = NT_STATUS_OK then
          let st3 := { st2 with
            static_share_mode_data_refcount := st2.static_share_mode_data_refcount + 1 }
          (some { data := st3.static_share_mode_data }, st3, [DbOp.fetchLocked id])
        else
          (none, { st2 with static_share_mode_record := none }, [DbOp.fetchLocked id])
    | some k =>
      if k ≠ id then
        (none, st, [])
      else
        match get_static_share_mode_data st id servicepath smb_fname old_write_time rand_seq with
        | (status, st2) =>
          if status = NT_STATUS_OK then
            let st3 := { st2 with
              static_share_mode_data_refcount := st2.static_share_mode_data_refcount + 1 }
            (some { data := st3.static_share_mode_data }, st3, [])
          else
            (none, st2, [])

/-- `share_mode_lock_destructor`: drop one reference; on the last one, persist
or delete through `share_mode_data_store`, release the store lock, and either
move the clean record into the cache (entries remain) or discard it. -/
def share_mode_lock_destructor (st : State) : State × List DbOp :=
  match st.static_share_mode_data with
  | none => (st, [])
  | some d =>
    if st.static_share_mode_data_refcount = 0 then
      (st, [])
    else
      let rc := st.static_share_mode_data_refcount - 1
      if 0 < rc then
        ({ st with static_share_mode_data_refcount := rc }, [])
      else
        match share_mode_data_store
            { st with static_share_mode_data_refcount := rc } d with
        | (_, d2, st2, evs) =>
          let st3 :=
            if st2.static_share_mode_record_talloced then
              { st2 with static_share_mode_record := none }
            else
              st2
          if d2.num_share_modes ≠ 0 then
            ({ share_mode_memcache_store st3 d2 with static_share_mode_data := none },
              evs)
          else
            ({ st3 with static_share_mode_data := none }, evs)

section DoLocked

variable {α : Type u}

/-- `share_mode_do_locked`: run a short function against the currently held
store record (same identity required, ordering-conflict error otherwise), or
take the per-key lock just for the call through `dbwrap_do_locked` (whose
possible failure — store unavailable — is injected via `do_locked_ok`).  The
function observes the record's value and reports whether dependents must be
woken.  Returns the status, the function's result when it ran, the state and
the store operations. -/
def share_mode_do_locked (st : State) (id : file_id)
    (fn : Option blob → α × Bool) (do_locked_ok : Bool) :
    NTStatus × Option α × State × List DbOp :=
  match st.static_share_mode_record with
  | some k =>
    if k ≠ id then
      (NTStatus.NT_STATUS_INVALID_LOCK_SEQUENCE, none, st, [])
    else
      match fn (dbwrap_record_get_value st k) with
      | (a, md) =>
        (NTStatus.NT_STATUS_OK, some a, st, if md then [DbOp.wakeup k] else [])
  | none =>
    if do_locked_ok = false then
      (NTStatus.NT_STATUS_INTERNAL_ERROR, none, st, [DbOp.doLockedOp id])
    else
      match fn (dbwrap_record_get_value st id) with
      | (a, md) =>
        (NTStatus.NT_STATUS_OK, some a, st,
          DbOp.doLockedOp id :: (if md then [DbOp.wakeup id] else []))

end DoLocked

/-- The per-open state consulted by `file_has_read_lease`. -/
structure files_struct where
  file_id : file_id
  share_mode_flags_seqnum : Int
  share_mode_flags : Nat
deriving DecidableEq, Repr

/-- `fsp_update_share_mode_flags_fn`: header-peek the locked record's value;
never wakes dependents. -/
def fsp_update_share_mode_flags_fn (v : Option blob) :
    Option (Nat × Nat) × Bool :=
  (get_share_mode_blob_header (value_blob v), false)

/-- `fsp_update_share_mode_flags`: refresh the cached flags byte via a
header-peek `share_mode_do_locked` call, but only when the database sequence
number moved since the last refresh for this open. -/
def fsp_update_share_mode_flags (st : State) (fsp : files_struct)
    (do_locked_ok : Bool) : NTStatus × files_struct × State × List DbOp :=
  let seqnum := st.db_seqnum
  if seqnum = fsp.share_mode_flags_seqnum then
    (NTStatus.NT_STATUS_OK, fsp, st, [])
  else
    match share_mode_do_locked st fsp.file_id fsp_update_share_mode_flags_fn
        do_locked_ok with
    | (status, res, st2, evs) =>
      if status ≠ NTStatus.NT_STATUS_OK then
        (status, fsp, st2, evs)
      else
        match res with
        | none =>
          -- zero-initialized state: ndr_err reads as success, flags as 0
          -- (not reachable: a successful do_locked call always ran fn)
          (NTStatus.NT_STATUS_OK,
            { fsp with share_mode_flags_seqnum := seqnum, share_mode_flags := 0 },
            st2, evs)
        | some none => (NTStatus.NT_STATUS_NDR_ERROR, fsp, st2, evs)
        | some (some (_seq, flags)) =>
          (NTStatus.NT_STATUS_OK,
            { fsp with share_mode_flags_seqnum := seqnum, share_mode_flags := flags },
            st2, evs)

def SHARE_MODE_HAS_READ_LEASE : Nat := 1

/-- `file_has_read_lease`: refresh the cached flags; on any failure return the
safe default `true`, otherwise the read-lease bit of the flags byte. -/
def file_has_read_lease (st : State) (fsp : files_struct) (do_locked_ok : Bool) :
    Bool × files_struct × State × List DbOp :=
  match fsp_update_share_mode_flags st fsp do_locked_ok with
  | (status, fsp2, st2, evs) =>
    if status ≠ NTStatus.NT_STATUS_OK then
      (true, fsp2, st2, evs)
    else
      (decide ((fsp2.share_mode_flags &&& SHARE_MODE_HAS_READ_LEASE) ≠ 0),
        fsp2, st2, evs)

/-- `fetch_share_mode_unlocked` with `fetch_share_mode_unlocked_parser`: a
read-only point-in-time fetch.  An absent record yields no handle; a
zero-length value is ignored by the parser (ctdb tombstone), also yielding no
handle; otherwise a handle is built whose data is the (possibly failed) parse
of the value. -/
def fetch_share_mode_unlocked (st : State) (id : file_id) :
    Option share_mode_lock × State × List DbOp :=
  match alist_lookup st.db id with
  | none => (none, st, [DbOp.parseRecord id])
  | some v =>
    if v.dsize_zero then
      (none, st, [DbOp.parseRecord id])
    else
      match parse_share_modes st id v with
      | (pd, st2) => (some { data := pd }, st2, [DbOp.parseRecord id])

/-- The async request's state (`struct fetch_share_mode_state`): the key and
the parser's output slot, which stays NULL when the parser never allocated. -/
structure fetch_share_mode_state where
  id : file_id
  lck : Option share_mode_lock
deriving DecidableEq, Repr

/-- `fetch_share_mode_send` with its completion: the async
`dbwrap_parse_record` request, modelled at the point where it has completed.
An absent record completes with NT_STATUS_NOT_FOUND; otherwise the parser ran
on the value, ignoring a zero-length one. -/
def fetch_share_mode_send (st : State) (id : file_id) :
    Except NTStatus fetch_share_mode_state × State × List DbOp :=
  match alist_lookup st.db id with
  | none => (Except.error NTStatus.NT_STATUS_NOT_FOUND, st, [DbOp.parseRecord id])
  | some v =>
    if v.dsize_zero then
      (Except.ok { id := id, lck := none }, st, [DbOp.parseRecord id])
    else
      match parse_share_modes st id v with
      | (pd, st2) =>
        (Except.ok { id := id, lck := some { data := pd } }, st2,
          [DbOp.parseRecord id])

/-- Outcomes of `fetch_share_mode_recv`; `null_deref` marks the dereference of
the NULL `parser_state.lck` pointer. -/
inductive fetch_recv_result
  | ok (d : share_mode_data)
  | failed (s : NTStatus)
  | null_deref
deriving DecidableEq, Repr

/-- `fetch_share_mode_recv`: propagate a request error; otherwise inspect
`state->parser_state.lck->data` — a NULL `lck` (parser skipped a zero-length
value) is dereferenced here — and report NT_STATUS_NOT_FOUND for a NULL
`data`, success otherwise. -/
def fetch_share_mode_recv :
    Except NTStatus fetch_share_mode_state → fetch_recv_result
  | Except.error s => fetch_recv_result.failed s
  | Except.ok fs =>
    match fs.lck with
    | none => fetch_recv_result.null_deref
    | some lck =>
      match lck.data with
      | none => fetch_recv_result.failed NTStatus.NT_STATUS_NOT_FOUND
      | some d => fetch_recv_result.ok d

section Traverse

variable {α : Type u}

/-- `share_mode_traverse_fn`: per-record traversal callback.  Records that
fail the full decode are skipped by returning 0 (continue); otherwise the
user's visitor runs, threading its private data. -/
def share_mode_traverse_fn (fn : file_id → share_mode_data → α → α × Int)
    (k : file_id) (v : blob) (acc : α) : α × Int :=
  match ndr_pull_share_mode_data_all v with
  | none => (acc, 0)
  | some d => fn k d acc

/-- Modelled from the spec: the store collaborator's
`traverse_read(visitor) -> (status, count)` is not part of the given sources;
it invokes the callback on each record in order, stops early when the callback
returns non-zero, and reports the number of records the traversal visited
(callback invocations). -/
def dbwrap_traverse_read (records : List (file_id × blob))
    (cb : file_id → blob → α → α × Int) (acc : α) : NTStatus × Nat × α :=
  match records with
  | [] => (NTStatus.NT_STATUS_OK, 0, acc)
  | (k, v) :: rest =>
    match cb k v acc with
    | (acc2, r) =>
      if r ≠ 0 then
        (NTStatus.NT_STATUS_OK, 1, acc2)
      else
        match dbwrap_traverse_read rest cb acc2 with
        | (s, n, acc3) => (s, n + 1, acc3)

/-- `share_mode_forall`: read-only traversal of the whole locking database;
returns the traversal's count, or -1 on a traversal error. -/
def share_mode_forall (st : State)
    (fn : file_id → share_mode_data → α → α × Int) (acc : α) : Int × α :=
  match dbwrap_traverse_read st.db (share_mode_traverse_fn fn) acc with
  | (s, n, acc2) =>
    if s ≠ NTStatus.NT_STATUS_OK then (-1, acc2) else ((n : Int), acc2)

end Traverse

/-- Modelled from the spec: `get_existing_share_mode_lock` is declared by the
sources but defined outside the given files; it acquires the record for the
identity without creation parameters, so it fails when no backing record
exists. -/
def get_existing_share_mode_lock (st : State) (id : file_id) :
    Option share_mode_lock × State × List DbOp :=
  get_share_mode_lock st id none none none 0

/-- The lease-store deletion `leases_db_del(client_guid, lease_key, id)`
issued for one entry, recorded as a store operation. -/
def leases_db_del_op (e : share_mode_entry) (k : file_id) : DbOp :=
  DbOp.leaseDelete e.client_guid e.lease_key k

/-- `cleanup_disconnected_lease`: delete one entry's lease association; any
lease-store failure is only logged, and the callback always answers false. -/
def cleanup_disconnected_lease (k : file_id) (e : share_mode_entry) :
    Bool × List DbOp :=
  (false, [leases_db_del_op e k])

/-- Modelled from the spec: `share_mode_forall_leases` is defined outside the
given files; per the spec the cleanup instructs the lease store to remove each
entry's lease association, so this visits every entry of the record in
order, collecting the callback answers and the issued operations. -/
def share_mode_forall_leases (k : file_id) (entries : List share_mode_entry)
    (fn : file_id → share_mode_entry → Bool × List DbOp) : Bool × List DbOp :=
  match entries with
  | [] => (true, [])
  | e :: rest =>
    match fn k e with
    | (ok1, evs1) =>
      match share_mode_forall_leases k rest fn with
      | (ok2, evs2) => (ok1 && ok2, evs1 ++ evs2)

/-- The per-entry guard loop of `share_mode_cleanup_disconnected`: every entry
must belong to a disconnected process and carry the expected open id. -/
def cleanup_check (oid : Nat) : List share_mode_entry → Bool
  | [] => true
  | e :: rest =>
    if server_id_is_disconnected e.pid = false then false
    else if oid ≠ e.share_file_id then false
    else cleanup_check oid rest

/-- The byte-range-lock collaborator `brl_cleanup_disconnected`, external to
this core. -/
structure CleanupEnv where
  brl_cleanup_disconnected : file_id → Nat → Bool

/-- The body of `share_mode_cleanup_disconnected` up to (excluding) the final
`talloc_free(frame)`: acquire the existing record, guard every entry, issue
the lease deletions and the byte-range cleanup, and on success clear the entry
list and mark the record dirty.  Returns the result, the acquired handle (if
any), the state and the operations issued so far. -/
def share_mode_cleanup_disconnected_body (env : CleanupEnv) (st : State)
    (fid : file_id) (open_persistent_id : Nat) :
    Bool × Option share_mode_lock × State × List DbOp :=
  match get_existing_share_mode_lock st fid with
  | (none, st1, evs1) => (false, none, st1, evs1)
  | (some lck, st1, evs1) =>
    match lck.data with
    | none =>
      -- not reachable: a handle returned by get_share_mode_lock carries data
      (false, some lck, st1, evs1)
    | some d =>
      if cleanup_check open_persistent_id d.share_modes = false then
        (false, some lck, st1, evs1)
      else
        match share_mode_forall_leases fid d.share_modes
            cleanup_disconnected_lease with
        | (_ok, lease_evs) =>
          let evs2 := evs1 ++ lease_evs ++
            [DbOp.brlCleanup fid open_persistent_id]
          if env.brl_cleanup_disconnected fid open_persistent_id = false then
            (false, some lck, st1, evs2)
          else
            let d2 := { d with share_modes := ([] : List share_mode_entry), modified := true }
            (true, some lck,
              { st1 with static_share_mode_data := some d2 },
              evs2)

/-- `share_mode_cleanup_disconnected`: the body followed by the release of the
acquired handle (the `talloc_free(frame)` at `done`), which persists the
cleaned record through the normal release path. -/
def share_mode_cleanup_disconnected (env : CleanupEnv) (st : State)
    (fid : file_id) (open_persistent_id : Nat) : Bool × State × List DbOp :=
  match share_mode_cleanup_disconnected_body env st fid open_persistent_id with
  | (ret, lckOpt, st1, evs1) =>
    match lckOpt with
    | none => (ret, st1, evs1)
    | some _ =>
      match share_mode_lock_destructor st1 with
      | (st2, evs2) => (ret, st2, evs1 ++ evs2)

/-! Theorems about the embedded operations, one per claim, with concrete
witnesses for the hypothesised ones. -/

/-- Claim C1: while the process already holds the slot for an identity, a
nested `get_share_mode_lock` on that identity succeeds, returns a handle
sharing the very record held in the slot, performs no store operation and
leaves the store, the cache and the held record untouched, only incrementing
the refcount; and a release that still leaves the refcount positive performs
no store operation either, only decrementing the refcount — the record is
written back only when the refcount returns to zero. -/
theorem nested_acquire_shares_record_without_io
    (st : State) (d : share_mode_data) (id : file_id)
    (sp : Option String) (f : Option smb_filename) (t : Option Int) (r : Nat)
    (hdata : st.static_share_mode_data = some d) (hid : d.id = id) :
    get_share_mode_lock st id sp f t r =
      (some { data := some d },
        { st with static_share_mode_data_refcount :=
            st.static_share_mode_data_refcount + 1 },
        [])
    ∧ (2 ≤ st.static_share_mode_data_refcount →
        share_mode_lock_destructor st =
          ({ st with static_share_mode_data_refcount :=
              st.static_share_mode_data_refcount - 1 }, [])) := by
  constructor
  · simp [get_share_mode_lock, hdata, file_id_equal, hid]
  · intro hrc
    have h1 : ¬ (st.static_share_mode_data_refcount = 0) := by omega
    have h2 : 0 < st.static_share_mode_data_refcount - 1 := by omega
    simp only [share_mode_lock_destructor, hdata, h1, if_false, h2, if_true]

def w_fid : file_id := { devid := 1, inode := 2, extid := 0 }

def w_entry : share_mode_entry :=
  { pid := { pid := UINT64_MAX }, share_file_id := 42, client_guid := 7,
    lease_key := 9, stale := false }

def w_d : share_mode_data :=
  { id := w_fid, base_name := "f", stream_name := none, servicepath := "s",
    old_write_time := 0, sequence_number := 5, flags := 1,
    share_modes := [w_entry], modified := false, fresh := false }

def w_held : State :=
  { db := [(w_fid, blob.wellFormed w_d)], db_seqnum := 0, cache := [],
    static_share_mode_data := some w_d, static_share_mode_data_refcount := 2,
    static_share_mode_record := some w_fid,
    static_share_mode_record_talloced := true }

/-- Witness for C1 at a concrete held state with refcount 2. -/
theorem nested_acquire_shares_record_without_io_witness :
    get_share_mode_lock w_held w_fid none none none 0 =
      (some { data := some w_d },
        { w_held with static_share_mode_data_refcount :=
            w_held.static_share_mode_data_refcount + 1 },
        [])
    ∧ (2 ≤ w_held.static_share_mode_data_refcount →
        share_mode_lock_destructor w_held =
          ({ w_held with static_share_mode_data_refcount :=
              w_held.static_share_mode_data_refcount - 1 }, [])) :=
  nested_acquire_shares_record_without_io w_held w_d w_fid none none none 0 rfl rfl

/-- Claim C2: acquiring a different identity B while the slot is occupied by
A always fails with no handle and leaves the whole state — held record,
refcount, store, cache — unchanged, for every store content (so regardless of
whether B exists in the store); the same holds when only the locked store
record (from a surrounding do_locked) is held for A. -/
theorem cross_identity_acquire_fails
    (st : State) (idB : file_id)
    (sp : Option String) (f : Option smb_filename) (t : Option Int) (r : Nat) :
    (∀ d, st.static_share_mode_data = some d → d.id ≠ idB →
      get_share_mode_lock st idB sp f t r = (none, st, []))
    ∧ (∀ k, st.static_share_mode_data = none →
        st.static_share_mode_record = some k → k ≠ idB →
        get_share_mode_lock st idB sp f t r = (none, st, [])) := by
  constructor
  · intro d hdata hne
    simp [get_share_mode_lock, hdata, file_id_equal, hne]
  · intro k hdata hrec hne
    simp [get_share_mode_lock, hdata, hrec, hne]

def w_fidB : file_id := { devid := 9, inode := 9, extid := 0 }

def w_recheld : State :=
  { db := [], db_seqnum := 0, cache := [],
    static_share_mode_data := none, static_share_mode_data_refcount := 0,
    static_share_mode_record := some w_fid,
    static_share_mode_record_talloced := false }

/-- Witness for C2: concrete cross-identity attempts against a data-held and
a record-held slot both fail and change nothing. -/
theorem cross_identity_acquire_fails_witness :
    get_share_mode_lock w_held w_fidB none none none 0 = (none, w_held, [])
    ∧ get_share_mode_lock w_recheld w_fidB none none none 0 =
        (none, w_recheld, []) :=
  And.intro
    ((cross_identity_acquire_fails w_held w_fidB none none none 0).1 w_d rfl
      (by decide))
    ((cross_identity_acquire_fails w_recheld w_fidB none none none 0).2 w_fid rfl
      rfl (by decide))

/-- Claim C3: on final release (refcount 1 going to 0) of a record whose entry
list is empty, a `fresh` record is never persisted — no store or delete
operation happens and the store is unchanged — and a non-fresh (mutated)
record is deleted from the store rather than written back empty: the only
store operation is the delete of its key. -/
theorem empty_record_release_policy
    (st : State) (d : share_mode_data)
    (hdata : st.static_share_mode_data = some d)
    (hrc : st.static_share_mode_data_refcount = 1)
    (hempty : d.share_modes = []) :
    (d.fresh = true →
      (share_mode_lock_destructor st).2 = []
      ∧ (share_mode_lock_destructor st).1.db = st.db)
    ∧ (d.fresh = false → d.modified = true →
      (share_mode_lock_destructor st).2 = [DbOp.deleteRec d.id]
      ∧ (share_mode_lock_destructor st).1.db = alist_del st.db d.id) := by
  have hnum0 : d.num_share_modes = 0 := by
    simp [share_mode_data.num_share_modes, hempty]
  constructor
  · intro hfresh
    cases hmod : d.modified with
    | false =>
      refine And.intro ?_ ?_ <;>
      · simp [share_mode_lock_destructor, hdata, hrc, share_mode_data_store,
          hmod, hnum0]
        try (split <;> rfl)
    | true =>
      refine And.intro ?_ ?_ <;>
      · simp [share_mode_lock_destructor, hdata, hrc, share_mode_data_store,
          hmod, remove_stale_share_mode_entries,
          share_mode_data.num_share_modes, hempty, hfresh]
        try (split <;> rfl)
  · intro hfresh hmod
    refine And.intro ?_ ?_ <;>
    · simp [share_mode_lock_destructor, hdata, hrc, share_mode_data_store,
        hmod, remove_stale_share_mode_entries, share_mode_data.num_share_modes,
        hempty, hfresh, dbwrap_record_delete]
      try (split <;> rfl)

def w_dEmptyFresh : share_mode_data :=
  { w_d with share_modes := [], modified := true, fresh := true }

def w_dEmptyOld : share_mode_data :=
  { w_d with share_modes := [], modified := true, fresh := false }

def w_stEmptyFresh : State :=
  { db := [], db_seqnum := 0, cache := [],
    static_share_mode_data := some w_dEmptyFresh,
    static_share_mode_data_refcount := 1,
    static_share_mode_record := some w_fid,
    static_share_mode_record_talloced := true }

def w_stEmptyOld : State :=
  { db := [(w_fid, blob.wellFormed w_d)], db_seqnum := 0, cache := [],
    static_share_mode_data := some w_dEmptyOld,
    static_share_mode_data_refcount := 1,
    static_share_mode_record := some w_fid,
    static_share_mode_record_talloced := true }

/-- Witness for C3 at concrete empty records, one fresh and one mutated
non-fresh. -/
theorem empty_record_release_policy_witness :
    ((w_dEmptyFresh.fresh = true →
      (share_mode_lock_destructor w_stEmptyFresh).2 = []
      ∧ (share_mode_lock_destructor w_stEmptyFresh).1.db = w_stEmptyFresh.db))
    ∧ ((w_dEmptyOld.fresh = false → w_dEmptyOld.modified = true →
      (share_mode_lock_destructor w_stEmptyOld).2 = [DbOp.deleteRec w_dEmptyOld.id]
      ∧ (share_mode_lock_destructor w_stEmptyOld).1.db =
          alist_del w_stEmptyOld.db w_dEmptyOld.id)) :=
  And.intro
    (empty_record_release_policy w_stEmptyFresh w_dEmptyFresh rfl rfl rfl).1
    (empty_record_release_policy w_stEmptyOld w_dEmptyOld rfl rfl rfl).2

/-- Claim C4: with a cached record present for an identity, a cache fetch
returns the cached record exactly when its sequence number equals the one read
by the header peek of the current store value (removing it from the cache in
that case); on a sequence mismatch or a failed header peek the entry is
evicted, the fetch misses, and `parse_share_modes` then performs a fresh full
decode of the store value instead. -/
theorem memcache_fetch_seqnum_validation
    (st : State) (id : file_id) (c : share_mode_data) (b : blob)
    (hc : alist_lookup st.cache id = some c) :
    (∀ S fl, get_share_mode_blob_header b = some (S, fl) →
      c.sequence_number = S →
      share_mode_memcache_fetch st id b =
        (some c, { st with cache := alist_del st.cache id }))
    ∧ (∀ S fl, get_share_mode_blob_header b = some (S, fl) →
      c.sequence_number ≠ S →
      share_mode_memcache_fetch st id b =
        (none, { st with cache := alist_del st.cache id })
      ∧ parse_share_modes st id b =
          (ndr_pull_share_mode_data_all b,
            { st with cache := alist_del st.cache id }))
    ∧ (get_share_mode_blob_header b = none →
      share_mode_memcache_fetch st id b =
        (none, { st with cache := alist_del st.cache id })
      ∧ parse_share_modes st id b =
          (ndr_pull_share_mode_data_all b,
            { st with cache := alist_del st.cache id })) := by
  refine And.intro ?_ (And.intro ?_ ?_)
  · intro S fl hpeek hseq
    simp only [share_mode_memcache_fetch, hc, hpeek, hseq, ne_eq,
      not_true_eq_false, if_false, ite_false]
  · intro S fl hpeek hseq
    have hfetch : share_mode_memcache_fetch st id b =
        (none, { st with cache := alist_del st.cache id }) := by
      simp only [share_mode_memcache_fetch, hc, hpeek, ne_eq, hseq,
        not_false_iff, if_true, ite_true]
    exact And.intro hfetch (by simp only [parse_share_modes, hfetch])
  · intro hpeek
    have hfetch : share_mode_memcache_fetch st id b =
        (none, { st with cache := alist_del st.cache id }) := by
      simp only [share_mode_memcache_fetch, hc, hpeek]
    exact And.intro hfetch (by simp only [parse_share_modes, hfetch])

def w_stCache : State :=
  { db := [(w_fid, blob.wellFormed w_d)], db_seqnum := 0, cache := [(w_fid, w_d)],
    static_share_mode_data := none, static_share_mode_data_refcount := 0,
    static_share_mode_record := none,
    static_share_mode_record_talloced := false }

/-- Witness for C4: a concrete cached record hit on a matching sequence
number, missed-and-evicted on a mismatching one, and evicted on an unreadable
header. -/
theorem memcache_fetch_seqnum_validation_witness :
    share_mode_memcache_fetch w_stCache w_fid (blob.wellFormed w_d) =
      (some w_d, { w_stCache with cache := alist_del w_stCache.cache w_fid })
    ∧ (share_mode_memcache_fetch w_stCache w_fid (blob.bodyCorrupt 6 0) =
        (none, { w_stCache with cache := alist_del w_stCache.cache w_fid })
      ∧ parse_share_modes w_stCache w_fid (blob.bodyCorrupt 6 0) =
          (ndr_pull_share_mode_data_all (blob.bodyCorrupt 6 0),
            { w_stCache with cache := alist_del w_stCache.cache w_fid }))
    ∧ (share_mode_memcache_fetch w_stCache w_fid blob.headerCorrupt =
        (none, { w_stCache with cache := alist_del w_stCache.cache w_fid })
      ∧ parse_share_modes w_stCache w_fid blob.headerCorrupt =
          (ndr_pull_share_mode_data_all blob.headerCorrupt,
            { w_stCache with cache := alist_del w_stCache.cache w_fid })) :=
  And.intro
    ((memcache_fetch_seqnum_validation w_stCache w_fid w_d
      (blob.wellFormed w_d) rfl).1 w_d.sequence_number w_d.flags rfl rfl)
    (And.intro
      ((memcache_fetch_seqnum_validation w_stCache w_fid w_d
        (blob.bodyCorrupt 6 0) rfl).2.1 6 0 rfl (by decide))
      ((memcache_fetch_seqnum_validation w_stCache w_fid w_d
        blob.headerCorrupt rfl).2.2 rfl))

def w_dWrap : share_mode_data :=
  { w_d with sequence_number := 2 ^ 64 - 1, modified := true }

def w_stWrap : State :=
  { db := [(w_fid, blob.wellFormed { w_dWrap with modified := false })],
    db_seqnum := 0, cache := [],
    static_share_mode_data := some w_dWrap,
    static_share_mode_data_refcount := 1,
    static_share_mode_record := some w_fid,
    static_share_mode_record_talloced := true }

/-- Claim C5 counterexample: storing a modified record whose in-memory (and
previously persisted) sequence number is 2^64-1 persists sequence number 0 —
the uint64 increment wraps — so the persisted number is not strictly greater
than the previous one. -/
theorem seqnum_strict_increase_counterexample :
    (share_mode_data_store w_stWrap w_dWrap).2.1.sequence_number = 0
    ∧ (share_mode_data_store w_stWrap w_dWrap).2.2.2 =
        [DbOp.storeRec w_fid
          (ndr_push_share_mode_data (share_mode_data_store w_stWrap w_dWrap).2.1)]
    ∧ ¬ (w_dWrap.sequence_number <
          (share_mode_data_store w_stWrap w_dWrap).2.1.sequence_number) := by
  refine And.intro (by decide) (And.intro (by decide) (by decide))

/-- Claim C5 (amended): a freshly materialized record carries the freshly
drawn random value (reduced to 64 bits) as its sequence number with
`fresh = true`; and every write-back of a modified non-empty record persists
the incremented sequence number `(S+1) mod 2^64`, which is strictly greater
than S whenever the increment does not wrap (S+1 < 2^64). -/
theorem seqnum_random_init_and_increment
    (st : State) (d : share_mode_data) (r : Nat) (sp : String)
    (f : smb_filename) (t : Int)
    (hmod : d.modified = true)
    (hne : d.share_modes.filter (fun e => !e.stale) ≠ []) :
    (∃ d2, share_mode_data_store st d =
        (NTStatus.NT_STATUS_OK, d2,
          dbwrap_record_store st d2.id (ndr_push_share_mode_data d2),
          [DbOp.storeRec d2.id (ndr_push_share_mode_data d2)])
      ∧ d2.sequence_number = (d.sequence_number + 1) % 2 ^ 64
      ∧ (d.sequence_number + 1 < 2 ^ 64 →
          d.sequence_number < d2.sequence_number))
    ∧ (fresh_share_mode_lock r (some sp) (some f) (some t)).map
        (fun d0 => (d0.sequence_number, d0.fresh)) = some (r % 2 ^ 64, true) := by
  constructor
  · refine Exists.intro
      (remove_stale_share_mode_entries
        { d with sequence_number := (d.sequence_number + 1) % 2 ^ 64 }) ?_
    refine And.intro ?_ (And.intro ?_ ?_)
    · simp [share_mode_data_store, hmod, remove_stale_share_mode_entries,
        share_mode_data.num_share_modes, List.length_eq_zero, hne]
    · rfl
    · intro hlt
      show d.sequence_number < (d.sequence_number + 1) % 2 ^ 64
      rw [Nat.mod_eq_of_lt hlt]
      omega
  · simp [fresh_share_mode_lock]

def w_dMod : share_mode_data := { w_d with modified := true }

/-- Witness for the amended C5 at a concrete modified record with one live
entry. -/
theorem seqnum_random_init_and_increment_witness :
    ((∃ d2, share_mode_data_store w_stCache w_dMod =
        (NTStatus.NT_STATUS_OK, d2,
          dbwrap_record_store w_stCache d2.id (ndr_push_share_mode_data d2),
          [DbOp.storeRec d2.id (ndr_push_share_mode_data d2)])
      ∧ d2.sequence_number = (w_dMod.sequence_number + 1) % 2 ^ 64
      ∧ (w_dMod.sequence_number + 1 < 2 ^ 64 →
          w_dMod.sequence_number < d2.sequence_number))
    ∧ (fresh_share_mode_lock 77 (some "s")
        (some { base_name := "f", stream_name := none }) (some 0)).map
        (fun d0 => (d0.sequence_number, d0.fresh)) = some (77 % 2 ^ 64, true)) :=
  seqnum_random_init_and_increment w_stCache w_dMod 77 "s"
    { base_name := "f", stream_name := none } 0 rfl (by decide)

def log_visitor (k : file_id) (d : share_mode_data)
    (acc : List (file_id × share_mode_data)) :
    List (file_id × share_mode_data) × Int :=
  (acc ++ [(k, d)], 0)

def w_stTrav : State :=
  { db := [(w_fidB, blob.headerCorrupt), (w_fid, blob.wellFormed w_d)],
    db_seqnum := 0, cache := [],
    static_share_mode_data := none, static_share_mode_data_refcount := 0,
    static_share_mode_record := none,
    static_share_mode_record_talloced := false }

/-- Claim C7 counterexample: over a store holding one corrupt blob and one
valid record (N = 1), `share_mode_forall` visits the visitor only for the
valid record but returns 2 — the count of all records traversed, corrupt one
included — not the claimed N = 1. -/
theorem traversal_count_counterexample :
    share_mode_forall w_stTrav log_visitor [] = (2, [(w_fid, w_d)])
    ∧ (w_stTrav.db.filterMap
        (fun kv => ndr_pull_share_mode_data_all kv.2)).length = 1
    ∧ (2 : Int) ≠ 1 := by
  refine And.intro (by decide) (And.intro (by decide) (by decide))

theorem dbwrap_traverse_read_log (l : List (file_id × blob))
    (acc : List (file_id × share_mode_data)) :
    dbwrap_traverse_read l (share_mode_traverse_fn log_visitor) acc =
      (NTStatus.NT_STATUS_OK, l.length,
        acc ++ l.filterMap
          (fun kv => (ndr_pull_share_mode_data_all kv.2).map
            (fun d => (kv.1, d)))) := by
  induction l generalizing acc with
  | nil => simp [dbwrap_traverse_read]
  | cons kv rest ih =>
    obtain ⟨k, v⟩ := kv
    cases hv : ndr_pull_share_mode_data_all v with
    | none =>
      simp [dbwrap_traverse_read, share_mode_traverse_fn, hv, ih]
    | some d =>
      simp [dbwrap_traverse_read, share_mode_traverse_fn, hv, log_visitor, ih]

/-- Claim C7 (amended): with a never-stopping visitor, `share_mode_forall`
invokes the visitor exactly once per decodable record in store order, silently
skips undecodable records without aborting the traversal, and returns the
total number of records traversed — decodable and corrupt alike (N+1 when one
corrupt blob accompanies N valid records). -/
theorem traversal_skips_corrupt_counts_all (st : State) :
    share_mode_forall st log_visitor [] =
      ((st.db.length : Int),
        st.db.filterMap
          (fun kv => (ndr_pull_share_mode_data_all kv.2).map
            (fun d => (kv.1, d)))) := by
  simp [share_mode_forall, dbwrap_traverse_read_log]

def w_stTomb : State :=
  { db := [(w_fid, blob.tombstone)], db_seqnum := 0, cache := [],
    static_share_mode_data := none, static_share_mode_data_refcount := 0,
    static_share_mode_record := none,
    static_share_mode_record_talloced := false }

/-- Claim C8: at a zero-length stored value the synchronous unlocked fetch
returns no record (the claimed not-found outcome), but the async path
completed through `fetch_share_mode_send` makes `fetch_share_mode_recv`
dereference the NULL `parser_state.lck` pointer — the tombstone-skipping
parser never allocated it — instead of reporting NT_STATUS_NOT_FOUND. -/
theorem zero_length_value_fetch_paths :
    fetch_share_mode_unlocked w_stTomb w_fid =
      (none, w_stTomb, [DbOp.parseRecord w_fid])
    ∧ fetch_share_mode_recv (fetch_share_mode_send w_stTomb w_fid).1 =
        fetch_recv_result.null_deref := by
  exact And.intro rfl rfl

/-- Claim C9: `share_mode_do_locked` with a held store record for the same
identity runs the function against the held record's current value and
succeeds with the state unchanged; with a held record for a different
identity it returns the ordering-conflict error NT_STATUS_INVALID_LOCK_SEQUENCE
without running the function; and in every case the slot refcount after the
call equals the refcount before it. -/
theorem do_locked_reentrancy {α : Type u}
    (st st2 : State) (id k : file_id) (fn : Option blob → α × Bool) (ok : Bool)
    (hrec : st.static_share_mode_record = some k) :
    (k = id →
      share_mode_do_locked st id fn ok =
        (NTStatus.NT_STATUS_OK, some (fn (dbwrap_record_get_value st k)).1, st,
          if (fn (dbwrap_record_get_value st k)).2 then [DbOp.wakeup k] else []))
    ∧ (k ≠ id →
      share_mode_do_locked st id fn ok =
        (NTStatus.NT_STATUS_INVALID_LOCK_SEQUENCE, none, st, []))
    ∧ (share_mode_do_locked st2 id fn ok).2.2.1.static_share_mode_data_refcount
        = st2.static_share_mode_data_refcount := by
  refine And.intro ?_ (And.intro ?_ ?_)
  · intro h
    subst h
    rcases hfn : fn (dbwrap_record_get_value st k) with ⟨a, md⟩
    simp [share_mode_do_locked, hrec, hfn]
  · intro h
    simp [share_mode_do_locked, hrec, h]
  · cases h2 : st2.static_share_mode_record with
    | none =>
      cases ok with
      | false => simp [share_mode_do_locked, h2]
      | true =>
        rcases hfn : fn (dbwrap_record_get_value st2 id) with ⟨a, md⟩
        simp [share_mode_do_locked, h2, hfn]
    | some k2 =>
      by_cases hk : k2 = id
      · subst hk
        rcases hfn : fn (dbwrap_record_get_value st2 k2) with ⟨a, md⟩
        simp [share_mode_do_locked, h2, hfn]
      · simp [share_mode_do_locked, h2, hk]

def w_fn (v : Option blob) : Option blob × Bool := (v, true)

/-- Witness for C9: a concrete held record, hit with the same and with a
different identity. -/
theorem do_locked_reentrancy_witness :
    share_mode_do_locked w_recheld w_fid w_fn true =
      (NTStatus.NT_STATUS_OK,
        some (w_fn (dbwrap_record_get_value w_recheld w_fid)).1, w_recheld,
        if (w_fn (dbwrap_record_get_value w_recheld w_fid)).2 then
          [DbOp.wakeup w_fid] else [])
    ∧ share_mode_do_locked w_recheld w_fidB w_fn true =
        (NTStatus.NT_STATUS_INVALID_LOCK_SEQUENCE, none, w_recheld, []) :=
  And.intro
    ((do_locked_reentrancy w_recheld w_recheld w_fid w_fid w_fn true rfl).1 rfl)
    ((do_locked_reentrancy w_recheld w_recheld w_fidB w_fid w_fn true
      rfl).2.1 (by decide))

/-- Claim C10: whenever the share-mode-flags refresh fails — the locked call
on a free slot fails, the slot is held for a different file, or the header
peek of the current value fails — `file_has_read_lease` answers the safe
default `true`; the actual read-lease flag bit is answered only when the
refresh succeeds (the bit then coming from the store header) or when the
cached flags are still valid because the database sequence number has not
moved. -/
theorem read_lease_safe_default
    (st : State) (fsp : files_struct) :
    (st.db_seqnum = fsp.share_mode_flags_seqnum →
      ∀ ok, (file_has_read_lease st fsp ok).1 =
        decide ((fsp.share_mode_flags &&& SHARE_MODE_HAS_READ_LEASE) ≠ 0))
    ∧ (st.db_seqnum ≠ fsp.share_mode_flags_seqnum →
        st.static_share_mode_record = none →
        ((file_has_read_lease st fsp false).1 = true
        ∧ (get_share_mode_blob_header
            (value_blob (dbwrap_record_get_value st fsp.file_id)) = none →
            (file_has_read_lease st fsp true).1 = true)
        ∧ (∀ S fl, get_share_mode_blob_header
            (value_blob (dbwrap_record_get_value st fsp.file_id)) =
              some (S, fl) →
            (file_has_read_lease st fsp true).1 =
              decide ((fl &&& SHARE_MODE_HAS_READ_LEASE) ≠ 0))))
    ∧ (st.db_seqnum ≠ fsp.share_mode_flags_seqnum →
        ∀ k, st.static_share_mode_record = some k → k ≠ fsp.file_id →
        ∀ ok, (file_has_read_lease st fsp ok).1 = true) := by
  refine And.intro ?_ (And.intro ?_ ?_)
  · intro h ok
    simp [file_has_read_lease, fsp_update_share_mode_flags, h]
  · intro h hfree
    refine And.intro ?_ (And.intro ?_ ?_)
    · simp [file_has_read_lease, fsp_update_share_mode_flags, h,
        share_mode_do_locked, hfree]
    · intro hpeek
      simp [file_has_read_lease, fsp_update_share_mode_flags, h,
        share_mode_do_locked, hfree, fsp_update_share_mode_flags_fn, hpeek]
    · intro S fl hpeek
      simp [file_has_read_lease, fsp_update_share_mode_flags, h,
        share_mode_do_locked, hfree, fsp_update_share_mode_flags_fn, hpeek]
  · intro h k hrec hne ok
    simp [file_has_read_lease, fsp_update_share_mode_flags, h,
      share_mode_do_locked, hrec, hne]

def w_fsp : files_struct :=
  { file_id := w_fid, share_mode_flags_seqnum := -1, share_mode_flags := 0 }

def w_fspSame : files_struct :=
  { file_id := w_fid, share_mode_flags_seqnum := 0, share_mode_flags := 1 }

def w_fspB : files_struct :=
  { file_id := w_fidB, share_mode_flags_seqnum := -1, share_mode_flags := 0 }

/-- Witness for C10: the cached-valid, failed-call, failed-peek, successful
and conflicting-slot paths, each at a concrete state. -/
theorem read_lease_safe_default_witness :
    (file_has_read_lease w_stCache w_fspSame true).1 =
      decide ((w_fspSame.share_mode_flags &&& SHARE_MODE_HAS_READ_LEASE) ≠ 0)
    ∧ (file_has_read_lease w_stCache w_fsp false).1 = true
    ∧ (file_has_read_lease w_stTomb w_fsp true).1 = true
    ∧ (file_has_read_lease w_stCache w_fsp true).1 =
        decide ((w_d.flags &&& SHARE_MODE_HAS_READ_LEASE) ≠ 0)
    ∧ (file_has_read_lease w_recheld w_fspB true).1 = true :=
  And.intro
    ((read_lease_safe_default w_stCache w_fspSame).1 rfl true)
    (And.intro
      (((read_lease_safe_default w_stCache w_fsp).2.1 (by decide) rfl).1)
      (And.intro
        (((read_lease_safe_default w_stTomb w_fsp).2.1 (by decide) rfl).2.1 rfl)
        (And.intro
          (((read_lease_safe_default w_stCache w_fsp).2.1 (by decide)
            rfl).2.2 w_d.sequence_number w_d.flags rfl)
          ((read_lease_safe_default w_recheld w_fspB).2.2 (by decide) w_fid
            rfl (by decide) true))))

theorem alist_lookup_set {α : Type u} (l : List (file_id × α)) (k : file_id)
    (v : α) : alist_lookup (alist_set l k v) k = some v := by
  induction l with
  | nil => simp [alist_set, alist_lookup]
  | cons kv rest ih =>
    obtain ⟨k2, v2⟩ := kv
    by_cases h : k2 = k
    · simp [alist_set, alist_lookup, h]
    · simp [alist_set, alist_lookup, h, ih]

theorem share_mode_forall_leases_ops (k : file_id)
    (es : List share_mode_entry) :
    share_mode_forall_leases k es cleanup_disconnected_lease =
      (es.isEmpty, es.map (fun e => leases_db_del_op e k)) := by
  induction es with
  | nil => rfl
  | cons e rest ih =>
    simp [share_mode_forall_leases, cleanup_disconnected_lease, ih]

/-- The record as it sits in the static slot right after acquiring an
existing stored record for key `fid`: decoded (transient bits zeroed) with the
id forced to the locked key. -/
def decoded_for (fid : file_id) (d : share_mode_data) : share_mode_data :=
  { d with id := fid, modified := false, fresh := false }

/-- The record after a successful disconnected cleanup, before release:
entries cleared and dirty. -/
def cleaned_for (fid : file_id) (d : share_mode_data) : share_mode_data :=
  { d with id := fid, share_modes := [], modified := true, fresh := false }

/-- Claim C6: starting from a free slot and a stored record for `fid`,
`share_mode_cleanup_disconnected fid oid` returns false and leaves the
record's entry list unchanged (store untouched, the released clean record —
same entries — parked in the cache, no lease or byte-range operation issued)
whenever some entry's owner is not disconnected or some entry's open id
differs from `oid`; it returns true only when every entry passes that guard,
and then (the byte-range collaborator agreeing) it issues one lease-delete per
entry, exactly one byte-range cleanup call, clears the entry list and marks
the record dirty, so that the normal release path persists the change (here:
deletes the now-empty record from the store). -/
theorem cleanup_disconnected_guard_and_effects
    (env : CleanupEnv) (st : State) (fid : file_id) (oid : Nat)
    (d : share_mode_data)
    (hfree_d : st.static_share_mode_data = none)
    (hfree_r : st.static_share_mode_record = none)
    (hrc : st.static_share_mode_data_refcount = 0)
    (hdb : alist_lookup st.db fid = some (blob.wellFormed d))
    (hcache : alist_lookup st.cache fid = none) :
    (cleanup_check oid d.share_modes = false →
      (share_mode_cleanup_disconnected env st fid oid).1 = false
      ∧ (share_mode_cleanup_disconnected env st fid oid).2.1.db = st.db
      ∧ alist_lookup (share_mode_cleanup_disconnected env st fid oid).2.1.cache
          fid = some (decoded_for fid d)
      ∧ (share_mode_cleanup_disconnected env st fid oid).2.2 =
          [DbOp.fetchLocked fid])
    ∧ (cleanup_check oid d.share_modes = true →
       env.brl_cleanup_disconnected fid oid = true →
      (share_mode_cleanup_disconnected env st fid oid).1 = true
      ∧ (share_mode_cleanup_disconnected_body env st fid
          oid).2.2.1.static_share_mode_data = some (cleaned_for fid d)
      ∧ (share_mode_cleanup_disconnected env st fid oid).2.2 =
          DbOp.fetchLocked fid ::
            (d.share_modes.map (fun e => leases_db_del_op e fid) ++
              [DbOp.brlCleanup fid oid, DbOp.deleteRec fid])
      ∧ (share_mode_cleanup_disconnected env st fid oid).2.1.db =
          alist_del st.db fid)
    ∧ ((share_mode_cleanup_disconnected env st fid oid).1 = true →
        cleanup_check oid d.share_modes = true) := by
  have hacq : get_existing_share_mode_lock st fid =
      (some { data := some (decoded_for fid d) },
        { st with
          static_share_mode_record := some fid
          static_share_mode_record_talloced := true
          static_share_mode_data := some (decoded_for fid d)
          static_share_mode_data_refcount :=
            st.static_share_mode_data_refcount + 1 },
        [DbOp.fetchLocked fid]) := by
    simp [get_existing_share_mode_lock, get_share_mode_lock, hfree_d, hfree_r,
      get_static_share_mode_data, dbwrap_record_get_value, hdb,
      parse_share_modes, share_mode_memcache_fetch, hcache,
      ndr_pull_share_mode_data_all, decoded_for]
  have hfail : cleanup_check oid d.share_modes = false →
      share_mode_cleanup_disconnected env st fid oid =
        (false,
          { st with
            cache := alist_set st.cache fid (decoded_for fid d)
            static_share_mode_data := none
            static_share_mode_data_refcount := 0
            static_share_mode_record := none
            static_share_mode_record_talloced := true },
          [DbOp.fetchLocked fid]) := by
    intro hchk
    have hne' : d.share_modes ≠ [] := by
      intro h
      rw [h] at hchk
      simp [cleanup_check] at hchk
    simp [share_mode_cleanup_disconnected, share_mode_cleanup_disconnected_body,
      hacq, hchk, share_mode_lock_destructor, hrc, share_mode_data_store,
      share_mode_memcache_store, share_mode_data.num_share_modes, hne',
      List.length_eq_zero, decoded_for]
  refine And.intro ?_ (And.intro ?_ ?_)
  · intro hchk
    rw [hfail hchk]
    exact And.intro rfl (And.intro rfl
      (And.intro (alist_lookup_set st.cache fid (decoded_for fid d)) rfl))
  · intro hchk hbrl
    have hsucc : share_mode_cleanup_disconnected env st fid oid =
        (true,
          { st with
            db := alist_del st.db fid
            db_seqnum := st.db_seqnum + 1
            static_share_mode_data := none
            static_share_mode_data_refcount := 0
            static_share_mode_record := none
            static_share_mode_record_talloced := true },
          DbOp.fetchLocked fid ::
            (d.share_modes.map (fun e => leases_db_del_op e fid) ++
              [DbOp.brlCleanup fid oid, DbOp.deleteRec fid])) := by
      simp [share_mode_cleanup_disconnected,
        share_mode_cleanup_disconnected_body, hacq, hchk,
        share_mode_forall_leases_ops, hbrl, share_mode_lock_destructor, hrc,
        share_mode_data_store, remove_stale_share_mode_entries,
        share_mode_data.num_share_modes, dbwrap_record_delete, decoded_for]
    have hbody : share_mode_cleanup_disconnected_body env st fid oid =
        (true,
          some { data := some (decoded_for fid d) },
          { st with
            static_share_mode_record := some fid
            static_share_mode_record_talloced := true
            static_share_mode_data := some (cleaned_for fid d)
            static_share_mode_data_refcount :=
              st.static_share_mode_data_refcount + 1 },
          DbOp.fetchLocked fid ::
            (d.share_modes.map (fun e => leases_db_del_op e fid) ++
              [DbOp.brlCleanup fid oid])) := by
      simp [share_mode_cleanup_disconnected_body, hacq, hchk,
        share_mode_forall_leases_ops, hbrl, decoded_for, cleaned_for]
    rw [hsucc, hbody]
    exact And.intro rfl (And.intro rfl (And.intro rfl rfl))
  · intro hres
    by_cases hchk : cleanup_check oid d.share_modes = true
    · exact hchk
    · rw [Bool.not_eq_true] at hchk
      rw [hfail hchk] at hres
      simp at hres

def w_stClean : State :=
  { db := [(w_fid, blob.wellFormed w_d)], db_seqnum := 0, cache := [],
    static_share_mode_data := none, static_share_mode_data_refcount := 0,
    static_share_mode_record := none,
    static_share_mode_record_talloced := false }

def w_env : CleanupEnv := { brl_cleanup_disconnected := fun _ _ => true }

/-- Witness for C6: the spec's concrete scenario — one entry owned by a
disconnected process with open id 42 — cleaned up with open id 42 (success)
and refused with open id 7 (record untouched). -/
theorem cleanup_disconnected_guard_and_effects_witness :
    ((share_mode_cleanup_disconnected w_env w_stClean w_fid 42).1 = true
      ∧ (share_mode_cleanup_disconnected_body w_env w_stClean w_fid
          42).2.2.1.static_share_mode_data = some (cleaned_for w_fid w_d)
      ∧ (share_mode_cleanup_disconnected w_env w_stClean w_fid 42).2.2 =
          DbOp.fetchLocked w_fid ::
            (w_d.share_modes.map (fun e => leases_db_del_op e w_fid) ++
              [DbOp.brlCleanup w_fid 42, DbOp.deleteRec w_fid])
      ∧ (share_mode_cleanup_disconnected w_env w_stClean w_fid 42).2.1.db =
          alist_del w_stClean.db w_fid)
    ∧ ((share_mode_cleanup_disconnected w_env w_stClean w_fid 7).1 = false
      ∧ (share_mode_cleanup_disconnected w_env w_stClean w_fid 7).2.1.db =
          w_stClean.db
      ∧ alist_lookup
          (share_mode_cleanup_disconnected w_env w_stClean w_fid 7).2.1.cache
          w_fid = some (decoded_for w_fid w_d)
      ∧ (share_mode_cleanup_disconnected w_env w_stClean w_fid 7).2.2 =
          [DbOp.fetchLocked w_fid]) :=
  And.intro
    ((cleanup_disconnected_guard_and_effects w_env w_stClean w_fid 42 w_d
      rfl rfl rfl rfl rfl).2.1 (by decide) rfl)
    ((cleanup_disconnected_guard_and_effects w_env w_stClean w_fid 7 w_d
      rfl rfl rfl rfl rfl).1 (by decide))

end ShareModeLock
